import Mathlib

/-!
Verification of the Mawaquit isochrone engine (web implementation).

Shallow embedding of the prayer-time calculator (`web/js/app.js`, class
`PrayTimes`) and of the synchronous isochrone generator
(`IsochroneGenerator.generateSync` and the caller-side worker protocol of
`IsochroneGenerator`).  JavaScript floating-point numbers are modelled as
real numbers; the IEEE `NaN` value (which the source produces from
`Math.acos` outside `[-1,1]` and from division by zero, and which it uses
as its "no solution" sentinel) is modelled as `Option.none`, with
`Option ℝ` arithmetic that propagates `none` exactly as JS propagates
`NaN`.  String-or-number setting values are modelled by `JSVal`.
-/

namespace Mawaquit

/-! ## Degree-based trigonometry (PrayTimes.sin/cos/tan/arcsin/arccos/arccot/arctan2) -/

/-- Degree sine: `Math.sin(d * Math.PI / 180)`. -/
noncomputable def dsin (d : ℝ) : ℝ := Real.sin (d * Real.pi / 180)

/-- Degree cosine: `Math.cos(d * Math.PI / 180)`. -/
noncomputable def dcos (d : ℝ) : ℝ := Real.cos (d * Real.pi / 180)

/-- Degree tangent: `Math.tan(d * Math.PI / 180)`. -/
noncomputable def dtan (d : ℝ) : ℝ := Real.tan (d * Real.pi / 180)

/-- Degree arcsine: `Math.asin(x) * 180 / Math.PI`. -/
noncomputable def darcsin (x : ℝ) : ℝ := Real.arcsin x * 180 / Real.pi

/-- Degree arccosine: `Math.acos(x) * 180 / Math.PI`.  Used only after an explicit
`|x| ≤ 1` check; JS would return `NaN` outside that domain. -/
noncomputable def darccos (x : ℝ) : ℝ := Real.arccos x * 180 / Real.pi

/-- Source method `arccot`: `Math.atan(1.0/x) * 180 / Math.PI`. -/
noncomputable def arccot (x : ℝ) : ℝ := Real.arctan (1 / x) * 180 / Real.pi

/-- Source method `arctan2`: `Math.atan2(y, x) * 180 / Math.PI`,
modelled through the complex argument, which agrees with `atan2`. -/
noncomputable def darctan2 (y x : ℝ) : ℝ := Complex.arg ⟨x, y⟩ * 180 / Real.pi

/-! ## fix / fixangle / fixhour -/

/-- Source method `fix(a, mode)`:
`a = a - mode * Math.floor(a / mode); return a < 0 ? a + mode : a`.
(The `isNaN` early return of the source is absorbed by the `Option`
arithmetic used around `fix`; real numbers have no `NaN`.) -/
noncomputable def fix (a mode : ℝ) : ℝ :=
  let b := a - mode * (⌊a / mode⌋ : ℤ)
  if b < 0 then b + mode else b

/-- Source method `fixangle`: `fix(angle, 360.0)`. -/
noncomputable def fixangle (a : ℝ) : ℝ := fix a 360

/-- Source method `fixhour`: `fix(hour, 24.0)`. -/
noncomputable def fixhour (a : ℝ) : ℝ := fix a 24

/-! ## SolarEphemeris: julian and sunPosition -/

/-- Source method `julian(year, month, day)`: Gregorian date to Julian day.
`if (month <= 2) { year -= 1; month += 12; }` then
`A = floor(year/100); B = 2 - A + floor(A/4);`
`return floor(365.25*(year+4716)) + floor(30.6001*(month+1)) + day + B - 1524.5`. -/
noncomputable def julian (year month day : ℤ) : ℝ :=
  let year2 : ℤ := if month ≤ 2 then year - 1 else year
  let month2 : ℤ := if month ≤ 2 then month + 12 else month
  let A : ℤ := ⌊(year2 : ℝ) / 100⌋
  let B : ℤ := 2 - A + ⌊(A : ℝ) / 4⌋
  ((⌊(365.25 : ℝ) * ((year2 : ℝ) + 4716)⌋ : ℤ) : ℝ)
    + ((⌊(30.6001 : ℝ) * ((month2 : ℝ) + 1)⌋ : ℤ) : ℝ)
    + (day : ℝ) + (B : ℝ) - 1524.5

/-- Source method `sunPosition(jd)`: returns `[declination, equationOfTime]`. -/
noncomputable def sunPosition (jd : ℝ) : ℝ × ℝ :=
  let D := jd - 2451545.0
  let g := fixangle (357.529 + 0.98560028 * D)
  let q := fixangle (280.459 + 0.98564736 * D)
  let L := fixangle (q + 1.915 * dsin g + 0.020 * dsin (2 * g))
  let e := 23.439 - 0.00000036 * D
  let RA := darctan2 (dcos e * dsin L) (dcos L) / 15.0
  let eqt := q / 15.0 - fixhour RA
  let decl := darcsin (dsin e * dsin L)
  (decl, eqt)

/-! ## Settings values and the numeric-token parser (PrayTimes.eval, asrFactor, isMin) -/

/-- A JS setting value: either a number or a string (e.g. `18`, `"10 min"`,
`"Standard"`). -/
inductive JSVal
  | num (q : ℚ)
  | str (s : String)
deriving DecidableEq

/-- Characters kept by the split regex `/[^0-9.+-]/` of `PrayTimes.eval`. -/
def numChar (c : Char) : Bool := c.isDigit || c == '.' || c == '+' || c == '-'

/-- The first element of `String(st).split(/[^0-9.+-]/)` — the leading run of
characters drawn from `0-9 . + -`. -/
def leadingToken (s : String) : String := String.mk (s.data.takeWhile numChar)

/-- Decimal value of a digit list (most significant first). -/
def digitsVal (l : List Char) : ℕ :=
  l.foldl (fun a c => 10 * a + (c.toNat - Char.toNat '0')) 0

/-- JS `parseFloat` on an unsigned body drawn from `0-9 .`: longest valid
prefix `digits [ '.' digits ]`, needing at least one digit; otherwise NaN
(`none`).  Mirrors the ECMAScript `parseFloat` grammar restricted to the
character class that `leadingToken` can produce. -/
def parseUFloat (l : List Char) : Option ℚ :=
  let ip := l.takeWhile Char.isDigit
  let rest := l.dropWhile Char.isDigit
  match rest with
  | '.' :: r2 =>
    let fp := r2.takeWhile Char.isDigit
    if ip.isEmpty && fp.isEmpty then none
    else some ((digitsVal ip : ℚ) + (digitsVal fp : ℚ) / (10 : ℚ) ^ fp.length)
  | _ => if ip.isEmpty then none else some (digitsVal ip : ℚ)

/-- JS `parseFloat` on a token drawn from `0-9 . + -`: optional leading sign,
then an unsigned body; anything else is NaN (`none`). -/
def parseFloatQ (s : String) : Option ℚ :=
  match s.data with
  | [] => none
  | '-' :: r => (parseUFloat r).map (fun q => -q)
  | '+' :: r => parseUFloat r
  | l => parseUFloat l

/-- Source method `eval(st)` on a string:
`const val = String(st).split(/[^0-9.+-]/)[0]; return val ? parseFloat(val) : 0;`.
`none` models the `NaN` that `parseFloat` returns on a non-empty
unparseable token. -/
def evalStr (s : String) : Option ℚ :=
  let tok := leadingToken s
  if tok = "" then some 0 else parseFloatQ tok

/-- Source method `eval(st)` on a JS value.  For a number `q`, JS first
stringifies it and re-parses it, recovering `q` for the decimal
representations used by the settings tables; we model that round trip as
the identity. -/
noncomputable def evalJS (v : JSVal) : Option ℝ :=
  match v with
  | .num q => some (q : ℝ)
  | .str s => (evalStr s).map (fun q => (q : ℝ))

/-- Source method `asrFactor(asrParam)`:
`const methods = { Standard: 1, Hanafi: 2 }; return asrParam in methods ? methods[asrParam] : this.eval(asrParam);`. -/
noncomputable def asrFactorJS (v : JSVal) : Option ℝ :=
  match v with
  | .str "Standard" => some 1
  | .str "Hanafi" => some 2
  | _ => evalJS v

/-- Source method `isMin(arg)`: `typeof arg === 'string' && arg.indexOf('min') > -1`. -/
def isMinJS (v : JSVal) : Bool :=
  match v with
  | .str s => decide ((s.splitOn "min").length > 1)
  | .num _ => false

/-! ## Option-valued arithmetic modelling IEEE NaN propagation -/

/-- JS addition where `none` stands for `NaN`. -/
def oadd : Option ℝ → Option ℝ → Option ℝ
  | some a, some b => some (a + b)
  | _, _ => none

/-- JS subtraction where `none` stands for `NaN`. -/
def osub : Option ℝ → Option ℝ → Option ℝ
  | some a, some b => some (a - b)
  | _, _ => none

/-- Source method `timeDiff(time1, time2) = fixhour(time2 - time1)` on
possibly-NaN times. -/
noncomputable def timeDiffO : Option ℝ → Option ℝ → Option ℝ
  | some t1, some t2 => some (fixhour (t2 - t1))
  | _, _ => none

/-- The JS comparison `diff > portion`: false whenever either side is `NaN`. -/
def optGT (a b : Option ℝ) : Prop :=
  ∃ x y, a = some x ∧ b = some y ∧ y < x

/-! ## The per-point solver (PrayTimes.midDay / sunAngleTime / asrTime) -/

/-- The instance variables that `getTimes` sets before computing
(`this.lat`, `this.lng`, `this.elv`, `this.timeZone`, `this.jDate`). -/
structure PTCtx where
  lat : ℝ
  lng : ℝ
  elv : ℝ
  timeZone : ℝ
  jDate : ℝ

/-- Source method `midDay(time) = fixhour(12 - eqt)` with
`eqt = sunPosition(this.jDate + time)[1]`. -/
noncomputable def midDay (ctx : PTCtx) (time : ℝ) : ℝ :=
  fixhour (12 - (sunPosition (ctx.jDate + time)).2)

/-- The core of `sunAngleTime`, with the declination, latitude and noon as
explicit arguments (the claims quantify over the declination).
`cosH = (-sin(angle) - sin(decl)·sin(lat)) / (cos(decl)·cos(lat))`;
`t = (1/15)·arccos(cosH)`; result `noon + (ccw ? -t : t)`.
A zero denominator gives `±Infinity`/`NaN` in JS and `Math.acos` then
yields `NaN`, as does `|cosH| > 1`; both are modelled as `none`. -/
noncomputable def sunAngleTimeCore (decl lat noon angle : ℝ) (dir : Option String) : Option ℝ :=
  let denom := dcos decl * dcos lat
  if denom = 0 then none
  else
    let cosH := (-(dsin angle) - dsin decl * dsin lat) / denom
    if 1 < |cosH| then none
    else
      let t := (1 / 15) * darccos cosH
      some (noon + (if dir = some "ccw" then -t else t))

/-- Source method `sunAngleTime(angle, time, direction)`:
`decl = sunPosition(this.jDate + time)[0]; noon = midDay(time);` then the
hour-angle formula of `sunAngleTimeCore`. -/
noncomputable def sunAngleTime (ctx : PTCtx) (angle time : ℝ) (dir : Option String) : Option ℝ :=
  sunAngleTimeCore ((sunPosition (ctx.jDate + time)).1) ctx.lat (midDay ctx time) angle dir

/-- Source method `asrTime(factor, time)`:
`decl = sunPosition(this.jDate + time)[0];`
`angle = -arccot(factor + tan(|this.lat - decl|));`
`return sunAngleTime(angle, time)` (default direction, i.e. clockwise). -/
noncomputable def asrTime (ctx : PTCtx) (factor time : ℝ) : Option ℝ :=
  let decl := (sunPosition (ctx.jDate + time)).1
  sunAngleTime ctx (-(arccot (factor + dtan |ctx.lat - decl|))) time none

/-- Source method `riseSetAngle(elevation) = 0.833 + 0.0347·sqrt(elevation)`. -/
noncomputable def riseSetAngle (elv : ℝ) : ℝ := 0.833 + 0.0347 * Real.sqrt elv

/-- Method `sunAngleTime` lifted to possibly-NaN angle and time (a `NaN` in either
propagates to a `NaN` result in JS). -/
noncomputable def sunAngleTimeM (ctx : PTCtx) (angle time : Option ℝ) (dir : Option String) : Option ℝ :=
  match angle, time with
  | some a, some tm => sunAngleTime ctx a tm dir
  | _, _ => none

/-- Method `asrTime` lifted to possibly-NaN factor and time. -/
noncomputable def asrTimeM (ctx : PTCtx) (factor time : Option ℝ) : Option ℝ :=
  match factor, time with
  | some f, some tm => asrTime ctx f tm
  | _, _ => none

/-! ## The getTimes pipeline (computeTimes / computePrayerTimes / adjustTimes) -/

/-- The times dictionary flowing through the pipeline; `none` models `NaN`
(rendered `'-----'` by the `Float` output format).  `midnight` is absent
(`none`) until `computeTimes` adds it. -/
structure PTimes where
  imsak : Option ℝ
  fajr : Option ℝ
  sunrise : Option ℝ
  dhuhr : Option ℝ
  asr : Option ℝ
  sunset : Option ℝ
  maghrib : Option ℝ
  isha : Option ℝ
  midnight : Option ℝ

/-- The settings dictionary after the constructor merged the method
parameters over the defaults (fields used by the computation). -/
structure Settings where
  imsak : JSVal
  fajr : JSVal
  dhuhr : JSVal
  asr : JSVal
  maghrib : JSVal
  isha : JSVal
  highLats : String
  midnight : String

/-- Source method `dayPortion(times)`: divide every time by 24. -/
noncomputable def dayPortion (t : PTimes) : PTimes where
  imsak := t.imsak.map (fun x => x / 24)
  fajr := t.fajr.map (fun x => x / 24)
  sunrise := t.sunrise.map (fun x => x / 24)
  dhuhr := t.dhuhr.map (fun x => x / 24)
  asr := t.asr.map (fun x => x / 24)
  sunset := t.sunset.map (fun x => x / 24)
  maghrib := t.maghrib.map (fun x => x / 24)
  isha := t.isha.map (fun x => x / 24)
  midnight := t.midnight.map (fun x => x / 24)

/-- Source method `computePrayerTimes(times)`: converts the times to day
portions and solves each prayer. -/
noncomputable def computePrayerTimes (ctx : PTCtx) (s : Settings) (t : PTimes) : PTimes :=
  let td := dayPortion t
  { imsak := sunAngleTimeM ctx (evalJS s.imsak) td.imsak (some "ccw")
    fajr := sunAngleTimeM ctx (evalJS s.fajr) td.fajr (some "ccw")
    sunrise := sunAngleTimeM ctx (some (riseSetAngle ctx.elv)) td.sunrise (some "ccw")
    dhuhr := td.dhuhr.map (midDay ctx)
    asr := asrTimeM ctx (asrFactorJS s.asr) td.asr
    sunset := sunAngleTimeM ctx (some (riseSetAngle ctx.elv)) td.sunset none
    maghrib := sunAngleTimeM ctx (evalJS s.maghrib) td.maghrib none
    isha := sunAngleTimeM ctx (evalJS s.isha) td.isha none
    midnight := td.midnight }

/-- Source method `nightPortion(angle, night)`: fraction of the night used
by the high-latitude adjustment (`highLats` is `'NightMiddle'` by
default), multiplied by the night length. -/
noncomputable def nightPortion (highLats : String) (angle night : Option ℝ) : Option ℝ :=
  if highLats = "AngleBased" then
    match angle, night with
    | some a, some n => some ((1 / 60) * a * n)
    | _, _ => none
  else if highLats = "OneSeventh" then night.map (fun n => (1 / 7) * n)
  else night.map (fun n => (1 / 2) * n)

open Classical in
/-- Source method `adjustHLTime(time, base, angle, night, direction)`:
replace the time by `base ± portion` when it is `NaN` or further from the
base than the allowed night portion (a JS `>` comparison involving `NaN`
is false). -/
noncomputable def adjustHLTime (highLats : String) (time base angle night : Option ℝ)
    (dir : Option String) : Option ℝ :=
  let portion := nightPortion highLats angle night
  let diff := if dir = some "ccw" then timeDiffO time base else timeDiffO base time
  if time = none ∨ optGT diff portion then
    if dir = some "ccw" then osub base portion else oadd base portion
  else time

/-- Source method `adjustHighLats(times)`: adjusts imsak, fajr, isha and
maghrib against sunrise/sunset using the night length. -/
noncomputable def adjustHighLats (s : Settings) (t : PTimes) : PTimes :=
  let night := timeDiffO t.sunset t.sunrise
  { t with
    imsak := adjustHLTime s.highLats t.imsak t.sunrise (evalJS s.imsak) night (some "ccw")
    fajr := adjustHLTime s.highLats t.fajr t.sunrise (evalJS s.fajr) night (some "ccw")
    isha := adjustHLTime s.highLats t.isha t.sunset (evalJS s.isha) night none
    maghrib := adjustHLTime s.highLats t.maghrib t.sunset (evalJS s.maghrib) night none }

/-- Source method `adjustTimes(times)`: add the timezone/longitude
correction to every time, apply the high-latitude adjustment unless
`highLats` is `'None'`, apply the `"N min"` overrides, and add the dhuhr
minute offset. -/
noncomputable def adjustTimes (ctx : PTCtx) (s : Settings) (t : PTimes) : PTimes :=
  let tzA : Option ℝ := some (ctx.timeZone - ctx.lng / 15)
  let t1 : PTimes :=
    { imsak := oadd t.imsak tzA, fajr := oadd t.fajr tzA, sunrise := oadd t.sunrise tzA
      dhuhr := oadd t.dhuhr tzA, asr := oadd t.asr tzA, sunset := oadd t.sunset tzA
      maghrib := oadd t.maghrib tzA, isha := oadd t.isha tzA, midnight := t.midnight }
  let t2 := if s.highLats ≠ "None" then adjustHighLats s t1 else t1
  let t3 := if isMinJS s.imsak then
      { t2 with imsak := osub t2.fajr ((evalJS s.imsak).map (fun x => x / 60)) } else t2
  let t4 := if isMinJS s.maghrib then
      { t3 with maghrib := osub t3.sunset ((evalJS s.maghrib).map (fun x => x / 60)) } else t3
  let t5 := if isMinJS s.isha then
      { t4 with isha := osub t4.maghrib ((evalJS s.isha).map (fun x => x / 60)) } else t4
  { t5 with dhuhr := oadd t5.dhuhr ((evalJS s.dhuhr).map (fun x => x / 60)) }

/-- Source method `tuneTimes(times)`: adds `offset[name]/60` to every time;
all offsets are initialised to 0 and never changed by the isochrone paths. -/
noncomputable def tuneTimes (t : PTimes) : PTimes where
  imsak := oadd t.imsak (some (0 / 60))
  fajr := oadd t.fajr (some (0 / 60))
  sunrise := oadd t.sunrise (some (0 / 60))
  dhuhr := oadd t.dhuhr (some (0 / 60))
  asr := oadd t.asr (some (0 / 60))
  sunset := oadd t.sunset (some (0 / 60))
  maghrib := oadd t.maghrib (some (0 / 60))
  isha := oadd t.isha (some (0 / 60))
  midnight := oadd t.midnight (some (0 / 60))

/-- Source method `computeTimes()`: starts from the fixed initial guesses,
runs `computePrayerTimes` once (`numIterations = 1`), adjusts, computes
midnight, tunes, and formats.  The `Float` output format is the identity
on finite times and renders `NaN` as the invalid marker, which `none`
already models. -/
noncomputable def computeTimesCtx (ctx : PTCtx) (s : Settings) : PTimes :=
  let t0 : PTimes :=
    { imsak := some 5, fajr := some 5, sunrise := some 6, dhuhr := some 12
      asr := some 13, sunset := some 18, maghrib := some 18, isha := some 18
      midnight := none }
  let t1 := computePrayerTimes ctx s t0
  let t2 := adjustTimes ctx s t1
  let t3 :=
    { t2 with midnight :=
        if s.midnight = "Jafari" then
          oadd t2.sunset ((timeDiffO t2.sunset t2.fajr).map (fun x => x / 2))
        else
          oadd t2.sunset ((timeDiffO t2.sunset t2.sunrise).map (fun x => x / 2)) }
  tuneTimes t3

/-- Source method `getTimes(date, coords, timezone, dst, format)` with
`format = 'Float'`: sets the instance variables, in particular
`this.jDate = this.julian(y, m, d) - this.lng / (15 * 24.0)`, and runs
`computeTimes`. -/
noncomputable def getTimesFloat (y m d : ℤ) (lat lng elv tz : ℝ) (dst : Bool)
    (s : Settings) : PTimes :=
  computeTimesCtx
    { lat := lat, lng := lng, elv := elv
      timeZone := tz + (if dst then 1 else 0)
      jDate := julian y m d - lng / (15 * 24.0) } s

/-! ## IsochroneGenerator.generateSync (synchronous fallback path) -/

/-- The bounds object `{minLon, maxLon, minLat, maxLat}`. -/
structure Bounds where
  minLon : ℝ
  maxLon : ℝ
  minLat : ℝ
  maxLat : ℝ

/-- The request settings forwarded by the app
(`{fajr, isha, maghrib, asr}` taken from the active `PrayTimes` instance). -/
structure ReqSettings where
  fajr : JSVal
  isha : JSVal
  maghrib : JSVal
  asr : JSVal

/-- The settings of `new PrayTimes('MWL')` after
`Object.assign(prayCalc.settings, settings)` in `generateSync`: the MWL
constructor defaults with the request's fajr/isha/maghrib/asr on top. -/
def mwlSettings (r : ReqSettings) : Settings where
  imsak := .str "10 min"
  fajr := r.fajr
  dhuhr := .str "0 min"
  asr := r.asr
  maghrib := r.maghrib
  isha := r.isha
  highLats := "NightMiddle"
  midnight := "Standard"

/-- Dictionary lookup `times[prayer]` on the result of `getTimes`;
a name outside the nine computed keys reads `undefined` (`none`). -/
def lookupTime (t : PTimes) (p : String) : Option ℝ :=
  if p = "imsak" then t.imsak
  else if p = "fajr" then t.fajr
  else if p = "sunrise" then t.sunrise
  else if p = "dhuhr" then t.dhuhr
  else if p = "asr" then t.asr
  else if p = "sunset" then t.sunset
  else if p = "maghrib" then t.maghrib
  else if p = "isha" then t.isha
  else if p = "midnight" then t.midnight
  else none

/-- The nine keys present in the `getTimes` result object. -/
def prayerKeys : List String :=
  ["imsak", "fajr", "sunrise", "dhuhr", "asr", "sunset", "maghrib", "isha", "midnight"]

/-- The latitude ladder of the sampling loop
`for (let lat = minLat; lat <= maxLat; lat += (maxLat - minLat) / 10)`:
eleven equally spaced values (in exact arithmetic the endpoint is hit). -/
noncomputable def gridLats (b : Bounds) : List ℝ :=
  (List.range 11).map fun i => b.minLat + (i : ℝ) * ((b.maxLat - b.minLat) / 10)

/-- The longitude ladder of the inner sampling loop. -/
noncomputable def gridLons (b : Bounds) : List ℝ :=
  (List.range 11).map fun i => b.minLon + (i : ℝ) * ((b.maxLon - b.minLon) / 10)

/-- The 11×11 grid of `(lat, lon)` sample points. -/
noncomputable def gridPoints (b : Bounds) : List (ℝ × ℝ) :=
  (gridLats b).flatMap fun lat => (gridLons b).map fun lon => (lat, lon)

open Classical in
/-- One grid-point sample:
`times = prayCalc.getTimes(date, [lat, lon], timezone, 0, 'Float')`, then
`if (times[prayer] && !isNaN(times[prayer])) sampleTimes.push(times[prayer] * 60)`.
The contribution is `none` when the looked-up time is `NaN`/missing or the
falsy value `0`. -/
noncomputable def samplePoint (prayer : String) (date : ℤ × ℤ × ℤ) (tz : ℝ)
    (rs : ReqSettings) (pt : ℝ × ℝ) : Option ℝ :=
  match lookupTime (getTimesFloat date.1 date.2.1 date.2.2 pt.1 pt.2 0 tz false
      (mwlSettings rs)) prayer with
  | some v => if v = 0 then none else some (v * 60)
  | none => none

/-- The collected `sampleTimes` array (minutes of day) of `generateSync`. -/
noncomputable def sampleTimes (prayer : String) (b : Bounds) (date : ℤ × ℤ × ℤ)
    (tz : ℝ) (rs : ReqSettings) : List ℝ :=
  (gridPoints b).filterMap (samplePoint prayer date tz rs)

/-- JS `Math.min(...l)` for the (non-empty) spread used in `generateSync`. -/
noncomputable def listMin : List ℝ → ℝ
  | [] => 0
  | x :: xs => xs.foldl min x

/-- JS `Math.max(...l)` for the (non-empty) spread used in `generateSync`. -/
noncomputable def listMax : List ℝ → ℝ
  | [] => 0
  | x :: xs => xs.foldl max x

/-- The fixed colour palette of `generateSync`. -/
def colorsList : List String :=
  ["#E3F2FD", "#BBDEFB", "#90CAF9", "#64B5F6", "#42A5F5",
   "#2196F3", "#1E88E5", "#1976D2", "#1565C0", "#0D47A1"]

/-- Zero-pad to two characters, as `toString().padStart(2, '0')`. -/
def pad2 (n : ℤ) : String :=
  let s := toString n
  if s.length < 2 then "0" ++ s else s

/-- Source method `formatTime(minutes)`:
`hours = Math.floor(minutes / 60) % 24; mins = Math.floor(minutes % 60)`,
rendered `HH:MM` (JS `%` truncates toward zero, i.e. `Int.tmod`). -/
def formatTime (m : ℤ) : String :=
  let hours := (Int.fdiv m 60).tmod 24
  let mins := m.tmod 60
  pad2 hours ++ ":" ++ pad2 mins

/-- One band object produced by `generateSync` (simplified rectangle bands). -/
structure Band where
  polygon : List (ℝ × ℝ)
  label : String
  labelPos : ℝ × ℝ
  minute : ℤ
  color : String

/-- The `i`-th rectangle band of the fallback path. -/
noncomputable def mkBand (b : Bounds) (minTime : ℝ) (numBands : ℤ) (i : ℕ) : Band :=
  let minute : ℤ := ⌊minTime⌋ + i
  let frac : ℝ := (i : ℝ) / (numBands : ℝ)
  let lonLeft := b.minLon + frac * (b.maxLon - b.minLon)
  let lonRight := b.minLon + (frac + 1 / (numBands : ℝ)) * (b.maxLon - b.minLon)
  { polygon := [(lonLeft, b.minLat), (lonRight, b.minLat), (lonRight, b.maxLat),
                (lonLeft, b.maxLat), (lonLeft, b.minLat)]
    label := formatTime minute
    labelPos := ((lonLeft + lonRight) / 2, (b.minLat + b.maxLat) / 2)
    minute := minute
    color := colorsList.getD (i % 10) "" }

/-- The result object of `generateSync`: either `{ error }` or `{ bands }`. -/
inductive IsoResult
  | error (msg : String)
  | bands (bs : List Band)

open Classical in
/-- Source method `IsochroneGenerator.generateSync(prayer, bounds, date, timezone, settings)`:
sample the grid; with no valid sample return `{ error: 'No valid times found' }`,
otherwise build `min(ceil(maxTime - minTime), 20)` rectangle bands. -/
noncomputable def generateSync (prayer : String) (b : Bounds) (date : ℤ × ℤ × ℤ)
    (tz : ℝ) (rs : ReqSettings) : IsoResult :=
  let st := sampleTimes prayer b date tz rs
  if st = [] then .error "No valid times found"
  else
    let minTime := listMin st - 2
    let maxTime := listMax st + 2
    let numBands : ℤ := min ⌈maxTime - minTime⌉ 20
    .bands ((List.range numBands.toNat).map (mkBand b minTime numBands))

/-! ## The caller-side worker protocol (IsochroneGenerator.generate /
handleWorkerMessage / the 30-second timeout callback) -/

/-- How a pending promise is settled. -/
inductive SettleKind
  | resolved
  | rejected
deriving DecidableEq

/-- The events the caller-side handlers react to: the firing of the
30-second `setTimeout` for an id, and the arrival of a worker message for
an id (with its error flag). -/
inductive WorkerEvent
  | timeoutFire (id : ℕ)
  | workerMsg (id : ℕ) (isError : Bool)

/-- The effect of one handler invocation: the updated `pendingRequests`
membership map, the promise settlement it performs (at most one), and the
messages it posts to the worker (none — neither handler posts). -/
structure StepOut where
  pending : ℕ → Bool
  settled : Option (ℕ × SettleKind)
  toWorker : List ℕ

/-- The two handlers translated from the source.  Timeout callback:
`if (this.pendingRequests.has(id)) { this.pendingRequests.delete(id); reject(...) }`.
`handleWorkerMessage`: `const pending = this.pendingRequests.get(id); if (!pending) return;`
`this.pendingRequests.delete(id); if (type === 'error' || error) reject else resolve`. -/
def isoStep (p : ℕ → Bool) : WorkerEvent → StepOut
  | .timeoutFire id =>
    if p id then
      { pending := fun n => if n = id then false else p n
        settled := some (id, .rejected), toWorker := [] }
    else { pending := p, settled := none, toWorker := [] }
  | .workerMsg id isErr =>
    if p id then
      { pending := fun n => if n = id then false else p n
        settled := some (id, if isErr then .rejected else .resolved), toWorker := [] }
    else { pending := p, settled := none, toWorker := [] }

/-- A worker message for an id that is no longer pending is ignored:
no settlement, no state change, nothing posted. -/
theorem isoStep_workerMsg_ignored (p : ℕ → Bool) (id : ℕ) (isErr : Bool)
    (h : p id = false) :
    isoStep p (.workerMsg id isErr) = { pending := p, settled := none, toWorker := [] } := by
  simp [isoStep, h]

/-- Run a sequence of events, accumulating the settlements performed. -/
def isoRun (p : ℕ → Bool) : List WorkerEvent → (ℕ → Bool) × List (ℕ × SettleKind)
  | [] => (p, [])
  | e :: es =>
    let o := isoStep p e
    let r := isoRun o.pending es
    (r.1, o.settled.toList ++ r.2)

/-- How many times a given id's promise is settled along a settlement log. -/
def settleCount (id : ℕ) (l : List (ℕ × SettleKind)) : ℕ :=
  (l.filter (fun x => x.1 == id)).length

/-! ## Helper lemmas -/

/-- The degree-based sine of 90 is 1. -/
theorem dsin_ninety : dsin 90 = 1 := by
  unfold dsin
  rw [show (90 : ℝ) * Real.pi / 180 = Real.pi / 2 by ring, Real.sin_pi_div_two]

/-- The degree-based sine of 0 is 0. -/
theorem dsin_zero_deg : dsin 0 = 0 := by
  unfold dsin
  rw [zero_mul, zero_div, Real.sin_zero]

/-- The degree-based cosine of 0 is 1. -/
theorem dcos_zero_deg : dcos 0 = 1 := by
  unfold dcos
  rw [zero_mul, zero_div, Real.cos_zero]

/-- The degree-based cosine of 60 is one half. -/
theorem dcos_sixty : dcos 60 = 1 / 2 := by
  unfold dcos
  rw [show (60 : ℝ) * Real.pi / 180 = Real.pi / 3 by ring, Real.cos_pi_div_three]

/-- A prayer name outside the nine computed keys reads `undefined`. -/
theorem lookupTime_eq_none (t : PTimes) (p : String) (h : p ∉ prayerKeys) :
    lookupTime t p = none := by
  simp only [prayerKeys, List.mem_cons, List.not_mem_nil, or_false, not_or] at h
  obtain ⟨h1, h2, h3, h4, h5, h6, h7, h8, h9⟩ := h
  simp [lookupTime, h1, h2, h3, h4, h5, h6, h7, h8, h9]

/-- With an unknown prayer name the sampling scan collects nothing. -/
theorem sampleTimes_eq_nil_of_unknown (prayer : String) (b : Bounds)
    (date : ℤ × ℤ × ℤ) (tz : ℝ) (rs : ReqSettings) (h : prayer ∉ prayerKeys) :
    sampleTimes prayer b date tz rs = [] := by
  unfold sampleTimes
  rw [List.filterMap_eq_nil_iff]
  intro pt _
  unfold samplePoint
  rw [lookupTime_eq_none _ _ h]

/-- With an unknown prayer name `generateSync` takes the error branch. -/
theorem generateSync_unknown (prayer : String) (b : Bounds)
    (date : ℤ × ℤ × ℤ) (tz : ℝ) (rs : ReqSettings) (h : prayer ∉ prayerKeys) :
    generateSync prayer b date tz rs = .error "No valid times found" := by
  unfold generateSync
  rw [sampleTimes_eq_nil_of_unknown prayer b date tz rs h]
  simp

/-! ## Claims -/

/-- Claim C4: `sunPosition(jd)` is a pure total function of `jd` returning,
with `D = jd - 2451545.0`, `g = fix360(357.529 + 0.98560028·D)`,
`q = fix360(280.459 + 0.98564736·D)`, `L = fix360(q + 1.915·sin g + 0.020·sin 2g)`,
`e = 23.439 - 0.00000036·D` and `RA = atan2(cos e · sin L, cos L)/15`,
exactly the pair `(declination = asin(sin e · sin L), equationOfTime = q/15 - fix24 RA)`. -/
theorem claim_C4_sunPosition_formula (jd : ℝ) :
    sunPosition jd =
      (let D := jd - 2451545.0
       let g := fixangle (357.529 + 0.98560028 * D)
       let q := fixangle (280.459 + 0.98564736 * D)
       let L := fixangle (q + 1.915 * dsin g + 0.020 * dsin (2 * g))
       let e := 23.439 - 0.00000036 * D
       let RA := darctan2 (dcos e * dsin L) (dcos L) / 15.0
       (darcsin (dsin e * dsin L), q / 15.0 - fixhour RA)) := rfl

/-- Claim C8: `julian(y, m, d)` implements the standard Gregorian→Julian-day
formula: months ≤ 2 are first treated as month+12 of year−1, then with
`A = floor(year/100)` and `B = 2 - A + floor(A/4)` it returns the real
number `floor(365.25·(year+4716)) + floor(30.6001·(month+1)) + day + B - 1524.5`
(half-day offset included); sanity-checked at 2000-01-01 ↦ 2451544.5. -/
theorem claim_C8_julian_formula :
    (∀ y m d : ℤ,
      julian y m d =
        (let year2 : ℤ := if m ≤ 2 then y - 1 else y
         let month2 : ℤ := if m ≤ 2 then m + 12 else m
         let A : ℤ := ⌊(year2 : ℝ) / 100⌋
         let B : ℤ := 2 - A + ⌊(A : ℝ) / 4⌋
         ((⌊(365.25 : ℝ) * ((year2 : ℝ) + 4716)⌋ : ℤ) : ℝ)
           + ((⌊(30.6001 : ℝ) * ((month2 : ℝ) + 1)⌋ : ℤ) : ℝ)
           + (d : ℝ) + (B : ℝ) - 1524.5))
    ∧ julian 2000 1 1 = 2451544.5 := by
  constructor
  · intro y m d; rfl
  · have hA : ⌊(1999 : ℝ) / 100⌋ = (19 : ℤ) := by
      rw [Int.floor_eq_iff]; norm_num
    have hA4 : ⌊((19 : ℤ) : ℝ) / 4⌋ = (4 : ℤ) := by
      rw [Int.floor_eq_iff]; norm_num
    have hY : ⌊(365.25 : ℝ) * ((1999 : ℝ) + 4716)⌋ = (2452653 : ℤ) := by
      rw [Int.floor_eq_iff]; norm_num
    have hM : ⌊(30.6001 : ℝ) * ((13 : ℝ) + 1)⌋ = (428 : ℤ) := by
      rw [Int.floor_eq_iff]; norm_num
    unfold julian
    norm_num [hA, hA4, hY, hM]

/-- Claim C7: For the Asr prayer the effective solar angle is recomputed per
point as `angle = -arccot(asrFactor + tan(|φ - δ|))`, with `φ` the point's
latitude (`this.lat`) and `δ` the declination for the current Julian day,
and this angle is fed to the same hour-angle solve (`sunAngleTime`) used by
the other prayers, with the default (clockwise) direction. -/
theorem claim_C7_asr_angle (ctx : PTCtx) (factor time : ℝ) :
    asrTime ctx factor time =
      sunAngleTime ctx
        (-(arccot (factor + dtan |ctx.lat - (sunPosition (ctx.jDate + time)).1|)))
        time none := rfl

/-- Claim C5: `getTimes` references the Julian day to the point's longitude
before any solar-position computation: `jDate = julian(y,m,d) - lng/(15·24)`,
and every subsequent `sunPosition` evaluation in the pipeline (inside
`midDay`, `sunAngleTime` and `asrTime`) is taken at this shifted day plus
the day-fraction of the time being solved. -/
theorem claim_C5_jdate_shift (y m d : ℤ) (lat lng elv tz : ℝ) (dst : Bool) (s : Settings) :
    getTimesFloat y m d lat lng elv tz dst s =
      computeTimesCtx
        { lat := lat, lng := lng, elv := elv
          timeZone := tz + (if dst then 1 else 0)
          jDate := julian y m d - lng / (15 * 24.0) } s
    ∧ (∀ (ctx : PTCtx) (time : ℝ),
        midDay ctx time = fixhour (12 - (sunPosition (ctx.jDate + time)).2))
    ∧ (∀ (ctx : PTCtx) (angle time : ℝ) (dir : Option String),
        sunAngleTime ctx angle time dir =
          sunAngleTimeCore ((sunPosition (ctx.jDate + time)).1) ctx.lat
            (midDay ctx time) angle dir)
    ∧ (∀ (ctx : PTCtx) (factor time : ℝ),
        asrTime ctx factor time =
          sunAngleTime ctx
            (-(arccot (factor + dtan |ctx.lat - (sunPosition (ctx.jDate + time)).1|)))
            time none) :=
  ⟨rfl, fun _ _ => rfl, fun _ _ _ _ => rfl, fun _ _ _ => rfl⟩

/-- Claim C1: For every latitude `φ`, declination `δ` and angle `a` given to
the hour-angle solve, if `cosH = (-sin a - sin δ · sin φ)/(cos δ · cos φ)`
has `|cosH| > 1` the solve yields no solution (`none`, the JS `NaN`
sentinel dropped by the sampler) and never a clamped finite time; and for
every output returned as valid, the `cos H` used internally lies in
`[-1, 1]`. -/
theorem claim_C1_cosH_guard (δ φ noon a : ℝ) (dir : Option String) :
    (1 < |(-(dsin a) - dsin δ * dsin φ) / (dcos δ * dcos φ)| →
      sunAngleTimeCore δ φ noon a dir = none)
    ∧ (∀ t, sunAngleTimeCore δ φ noon a dir = some t →
      |(-(dsin a) - dsin δ * dsin φ) / (dcos δ * dcos φ)| ≤ 1) := by
  constructor
  · intro h
    unfold sunAngleTimeCore
    by_cases hd : dcos δ * dcos φ = 0
    · simp [hd]
    · simp only [hd, if_false]
      rw [if_pos h]
  · intro t ht
    by_cases hd : dcos δ * dcos φ = 0
    · unfold sunAngleTimeCore at ht
      simp [hd] at ht
    · by_cases h1 : 1 < |(-(dsin a) - dsin δ * dsin φ) / (dcos δ * dcos φ)|
      · unfold sunAngleTimeCore at ht
        simp only [hd, if_false] at ht
        rw [if_pos h1] at ht
        exact absurd ht (by simp)
      · exact le_of_not_lt h1

/-- Witness for C1: at `δ = 0°`, `φ = 60°`, `a = 90°` the cosine is
`(-1 - 0)/(1 · ½) = -2`, outside `[-1, 1]`, and the solve returns `none`. -/
theorem claim_C1_witness : sunAngleTimeCore 0 60 12 90 none = none := by
  refine (claim_C1_cosH_guard 0 60 12 90 none).1 ?_
  rw [dsin_ninety, dsin_zero_deg, dcos_zero_deg, dcos_sixty]
  norm_num

/-- Claim C2: The computed dhuhr time is latitude-independent: with date,
longitude, elevation, timezone and settings held fixed, any two latitudes
produce exactly the same dhuhr value through the whole `getTimes` pipeline
(exact equality, hence a fortiori agreement within the 1e-9 tolerance the
specification asks for): dhuhr is `midDay`-based and contains no
hour-angle (latitude) term. -/
theorem claim_C2_dhuhr_latitude_free (y m d : ℤ) (lat1 lat2 lng elv tz : ℝ)
    (dst : Bool) (s : Settings) :
    (getTimesFloat y m d lat1 lng elv tz dst s).dhuhr =
      (getTimesFloat y m d lat2 lng elv tz dst s).dhuhr := by
  simp only [getTimesFloat, computeTimesCtx, computePrayerTimes, adjustTimes,
    adjustHighLats, dayPortion, tuneTimes, midDay]
  split_ifs <;> rfl

/-- A concrete request-settings value (the MWL defaults forwarded by the app). -/
def testReq : ReqSettings where
  fajr := .num 18
  isha := .num 17
  maghrib := .str "0 min"
  asr := .str "Standard"

/-- Claim C3, counterexample: The claim says an unknown prayer identifier
such as `"tarawih"` yields the `InvalidPrayer` error without any solve
being attempted.  In the synchronous generator there is no such check: the
sampling scan runs over the whole grid (solving every prayer at each
point), finds no entry under the unknown key, and the request returns the
generic zero-valid-samples error `'No valid times found'` — not an
`InvalidPrayer` error. -/
theorem claim_C3_counterexample :
    generateSync "tarawih" ⟨2, 3, 48, 49⟩ (2024, 6, 21) 1 testReq =
      .error "No valid times found"
    ∧ generateSync "tarawih" ⟨2, 3, 48, 49⟩ (2024, 6, 21) 1 testReq ≠
      .error "InvalidPrayer" := by
  have h := generateSync_unknown "tarawih" ⟨2, 3, 48, 49⟩ (2024, 6, 21) 1 testReq
    (by decide)
  exact ⟨h, by rw [h]; intro hc; injection hc with hs; exact absurd hs (by decide)⟩

/-- Claim C3, amended: For every request whose prayer identifier is not one
of the nine keys of the computed times object, the synchronous isochrone
generation runs its sampling scan, collects zero samples, and returns the
zero-valid-samples error `'No valid times found'`; there is no dedicated
`InvalidPrayer` error. -/
theorem claim_C3_unknown_prayer (prayer : String) (b : Bounds) (date : ℤ × ℤ × ℤ)
    (tz : ℝ) (rs : ReqSettings) (h : prayer ∉ prayerKeys) :
    generateSync prayer b date tz rs = .error "No valid times found" :=
  generateSync_unknown prayer b date tz rs h

/-- Witness for the amended C3 at the concrete request of the specification
scenario. -/
theorem claim_C3_witness :
    generateSync "tarawih" ⟨-5, 10, 41, 51⟩ (2025, 1, 13) 1 testReq =
      .error "No valid times found" :=
  claim_C3_unknown_prayer "tarawih" ⟨-5, 10, 41, 51⟩ (2025, 1, 13) 1 testReq
    (by decide)

/-- Claim C9: If the coarse range-discovery scan over the bounds grid finds
zero valid prayer times, the request yields the zero-valid-samples error
and no band list; if at least one valid sample exists, a band list is
returned — per-point failures below that threshold never surface as
errors. -/
theorem claim_C9_no_valid_samples (prayer : String) (b : Bounds) (date : ℤ × ℤ × ℤ)
    (tz : ℝ) (rs : ReqSettings) :
    (sampleTimes prayer b date tz rs = [] →
      generateSync prayer b date tz rs = .error "No valid times found")
    ∧ (sampleTimes prayer b date tz rs ≠ [] →
      ∃ bs, generateSync prayer b date tz rs = .bands bs) := by
  constructor
  · intro h
    unfold generateSync
    rw [h]
    simp
  · intro h
    unfold generateSync
    rw [if_neg h]
    exact ⟨_, rfl⟩

/-- Witness for C9: a request whose scan collects nothing (unknown key, so
every grid point is dropped) indeed returns the error. -/
theorem claim_C9_witness :
    generateSync "taraweeh" ⟨2, 3, 48, 49⟩ (2024, 6, 21) 1 testReq =
      .error "No valid times found" :=
  (claim_C9_no_valid_samples "taraweeh" ⟨2, 3, 48, 49⟩ (2024, 6, 21) 1 testReq).1
    (sampleTimes_eq_nil_of_unknown "taraweeh" ⟨2, 3, 48, 49⟩ (2024, 6, 21) 1 testReq
      (by decide))

/-- Claim C6, counterexample: The claim says numeric resolution yields 0
when the string is empty or unparseable.  On `"-"` the leading token is
non-empty (`"-"`), `parseFloat` returns `NaN`, and `eval` returns that
`NaN` (`none`) rather than 0. -/
theorem claim_C6_counterexample :
    evalJS (JSVal.str "-") = none ∧ (none : Option ℝ) ≠ some 0 := by
  constructor
  · rfl
  · simp

/-- Claim C6, amended: Numeric resolution takes the leading run of
characters from `0-9 . + -` and parses its numeric prefix: an empty run
(empty or immediately non-numeric string) yields 0, a run parsing to `q`
yields `q`, and a non-empty but unparseable run (e.g. `"-"`) yields `NaN`
(`none`) — not 0.  Asr factor resolution maps `"Standard"` to 1,
`"Hanafi"` to 2, and any other value such as `"1.5"` to its parsed
numeric value. -/
theorem claim_C6_eval_resolution :
    (∀ s : String, leadingToken s = "" → evalJS (JSVal.str s) = some 0)
    ∧ (∀ (s : String) (q : ℚ), leadingToken s ≠ "" →
        parseFloatQ (leadingToken s) = some q → evalJS (JSVal.str s) = some (q : ℝ))
    ∧ (∀ s : String, leadingToken s ≠ "" →
        parseFloatQ (leadingToken s) = none → evalJS (JSVal.str s) = none)
    ∧ asrFactorJS (JSVal.str "Standard") = some 1
    ∧ asrFactorJS (JSVal.str "Hanafi") = some 2
    ∧ asrFactorJS (JSVal.str "1.5") = some 1.5 := by
  refine ⟨?_, ?_, ?_, rfl, rfl, ?_⟩
  · intro s h
    simp [evalJS, evalStr, h]
  · intro s q h hp
    simp [evalJS, evalStr, h, hp]
  · intro s h hp
    simp [evalJS, evalStr, h, hp]
  · show evalJS (JSVal.str "1.5") = some 1.5
    have h1 : evalStr "1.5" = parseFloatQ (leadingToken "1.5") := by
      unfold evalStr
      rw [if_neg (by decide : ¬ leadingToken "1.5" = "")]
    have h2 : evalStr "1.5" = some (3 / 2 : ℚ) := by
      rw [h1, show leadingToken "1.5" = "1.5" from by decide]
      rw [show parseFloatQ "1.5" =
          some ((digitsVal ['1'] : ℚ) + (digitsVal ['5'] : ℚ) / (10 : ℚ) ^ (['5'].length))
        from rfl]
      norm_num [show digitsVal ['1'] = 1 from by decide,
        show digitsVal ['5'] = 5 from by decide]
    simp [evalJS, h2]
    norm_num

/-- The token of `"7.5 min"` parses to `15/2`. -/
theorem parseFloatQ_sevenPointFive :
    parseFloatQ (leadingToken "7.5 min") = some ((15 : ℚ) / 2) := by
  rw [show leadingToken "7.5 min" = "7.5" from by decide]
  rw [show parseFloatQ "7.5" =
      some ((digitsVal ['7'] : ℚ) + (digitsVal ['5'] : ℚ) / (10 : ℚ) ^ (['5'].length))
    from rfl]
  norm_num [show digitsVal ['7'] = 7 from by decide,
    show digitsVal ['5'] = 5 from by decide]

/-- Witness for C6 at concrete strings: `"abc"` has an empty token and
resolves to 0; `"7.5 min"` resolves to its leading numeric value. -/
theorem claim_C6_witness :
    evalJS (JSVal.str "abc") = some 0
    ∧ evalJS (JSVal.str "7.5 min") = some ((15 / 2 : ℚ) : ℝ) := by
  refine ⟨claim_C6_eval_resolution.1 "abc" (by decide), ?_⟩
  exact claim_C6_eval_resolution.2.1 "7.5 min" (15 / 2) (by decide)
    parseFloatQ_sevenPointFive

/-! ### C10 helper lemmas: the pending map only shrinks, and a
non-pending id can never be settled again. -/

/-- A step never re-adds an id to the pending map. -/
theorem isoStep_pending_mono (p : ℕ → Bool) (e : WorkerEvent) (id : ℕ)
    (h : p id = false) : (isoStep p e).pending id = false := by
  cases e with
  | timeoutFire i =>
    by_cases hp : p i
    · simp only [isoStep, if_pos hp]
      by_cases hi : id = i <;> simp [hi, h]
    · simp [isoStep, hp, h]
  | workerMsg i isErr =>
    by_cases hp : p i
    · simp only [isoStep, if_pos hp]
      by_cases hi : id = i <;> simp [hi, h]
    · simp [isoStep, hp, h]

/-- A step never settles an id that is not pending. -/
theorem isoStep_settled_ne (p : ℕ → Bool) (e : WorkerEvent) (id : ℕ)
    (h : p id = false) (k : SettleKind) : (isoStep p e).settled ≠ some (id, k) := by
  cases e with
  | timeoutFire i =>
    by_cases hp : p i
    · simp only [isoStep, if_pos hp]
      intro hc
      injection hc with hc2
      have : i = id := congrArg Prod.fst hc2
      rw [this] at hp
      rw [h] at hp
      exact Bool.noConfusion hp
    · simp [isoStep, hp]
  | workerMsg i isErr =>
    by_cases hp : p i
    · simp only [isoStep, if_pos hp]
      intro hc
      injection hc with hc2
      have : i = id := congrArg Prod.fst hc2
      rw [this] at hp
      rw [h] at hp
      exact Bool.noConfusion hp
    · simp [isoStep, hp]

/-- Once an id is out of the pending map, no sequence of later events
settles it again. -/
theorem isoRun_settleCount_zero (tr : List WorkerEvent) (p : ℕ → Bool) (id : ℕ)
    (h : p id = false) : settleCount id (isoRun p tr).2 = 0 := by
  induction tr generalizing p with
  | nil => rfl
  | cons e es ih =>
    have hmono := isoStep_pending_mono p e id h
    have hrest := ih (isoStep p e).pending hmono
    simp only [isoRun, settleCount, List.filter_append, List.length_append]
    simp only [settleCount] at hrest
    rw [hrest]
    have : ((isoStep p e).settled.toList.filter (fun x => x.1 == id)).length = 0 := by
      cases hs : (isoStep p e).settled with
      | none => simp [Option.toList]
      | some v =>
        have hne := isoStep_settled_ne p e id h v.2
        rw [hs] at hne
        have : v.1 ≠ id := by
          intro hv
          exact hne (by rw [← hv])
        simp [Option.toList, this]
    omega

/-- Claim C10: After the 30-second caller-side timeout fires for a pending
request id, that request's promise is rejected; the timeout handler sends
nothing to the worker (no preemption of the in-flight computation); a
worker message later arriving for the same id is ignored (no settlement,
no state change); and over any sequence of later events the promise is
never settled again — so it is settled exactly once, by the rejection. -/
theorem claim_C10_timeout_fire (p : ℕ → Bool) (id : ℕ) (tr : List WorkerEvent)
    (h : p id = true) :
    (isoStep p (.timeoutFire id)).settled = some (id, .rejected)
    ∧ (isoStep p (.timeoutFire id)).pending id = false
    ∧ (isoStep p (.timeoutFire id)).toWorker = []
    ∧ (∀ isErr, isoStep (isoStep p (.timeoutFire id)).pending (.workerMsg id isErr) =
        { pending := (isoStep p (.timeoutFire id)).pending
          settled := none, toWorker := [] })
    ∧ settleCount id (isoRun (isoStep p (.timeoutFire id)).pending tr).2 = 0 := by
  have hpend : (isoStep p (.timeoutFire id)).pending id = false := by
    simp [isoStep, h]
  refine ⟨by simp [isoStep, h], hpend, by simp [isoStep, h], ?_, ?_⟩
  · intro isErr
    exact isoStep_workerMsg_ignored _ id isErr hpend
  · exact isoRun_settleCount_zero tr _ id hpend

/-- Witness for C10 at a concrete pending map, id and trace: id 1 is
pending; the timeout rejects it once and a later worker message for id 1
settles nothing. -/
theorem claim_C10_witness :
    (isoStep (fun n => n == 1) (.timeoutFire 1)).settled = some (1, .rejected)
    ∧ settleCount 1
        (isoRun (isoStep (fun n => n == 1) (.timeoutFire 1)).pending
          [.workerMsg 1 false, .workerMsg 1 true]).2 = 0 := by
  have h := claim_C10_timeout_fire (fun n => n == 1) 1
    [.workerMsg 1 false, .workerMsg 1 true] (by decide)
  exact ⟨h.1, h.2.2.2.2⟩

end Mawaquit
